import Mathlib

/-
Verification of the gnaf-loader repository (src/csvloader.py, src/csvfixer.py).

Python strings are modelled as lists of Unicode code points (`List Nat`);
byte streams are modelled as lists of byte values (`List Nat`, each < 256 for
a true byte stream).  Fallible steps return `Except PyErr`.  Interactions with
the outside world (the csv module's parse of the header row, psycopg2, the
temp file) are modelled by a `World` record of outcomes plus an `Effect`
trace recording, in order, the externally visible actions `load_data`
performs.
-/

/-- Code points of a Lean string literal, used to write Python string
literals from the source as `List Nat` values. -/
def pystr (s : String) : List Nat := s.toList.map Char.toNat

/-- Python exceptions that the modelled code can raise. -/
inductive PyErr where
  /-- `next(reader)` on an exhausted reader (empty file). -/
  | stopIteration
  /-- `csv.Error`: header row unparsable under the dialect. -/
  | csvError
  /-- `FileNotFoundError` from `open`. -/
  | fileNotFound
  /-- attribute lookup failed on the object and its class. -/
  | attributeError
  /-- an error raised by the database driver. -/
  | databaseError
deriving DecidableEq, Repr

/-- The per-byte loop body of `CsvLoader._remove_invalid_characters`
(src/csvloader.py lines 106-123; the same loop appears in src/csvfixer.py
lines 21-40): `0xc9` is written as `'e'` (0x65), `0x00` is skipped,
a byte compared greater than `0xff` is skipped, anything else is copied. -/
def remove_invalid_characters : List Nat → List Nat
  | [] => []
  | c :: cs =>
    if c = 0xc9 then 0x65 :: remove_invalid_characters cs
    else if c = 0x00 then remove_invalid_characters cs
    else if c > 0xff then remove_invalid_characters cs
    else c :: remove_invalid_characters cs

/-- Number of iterations of the sanitizer loop that take the
`elif c > b'\xff'` branch (src/csvloader.py line 120). -/
def invalid_branch_hits : List Nat → Nat
  | [] => 0
  | c :: cs =>
    if c = 0xc9 then invalid_branch_hits cs
    else if c = 0x00 then invalid_branch_hits cs
    else if c > 0xff then invalid_branch_hits cs + 1
    else invalid_branch_hits cs

/-- The per-byte map the sanitizer realises on true bytes. -/
def sanitize_byte (b : Nat) : Option Nat :=
  if b = 0xc9 then some 0x65 else if b = 0x00 then none else some b

/-- C1: on every true byte stream (all values ≤ 0xFF) the sanitizer is the
independent per-byte map sending 0xC9 to 0x65, dropping 0x00 and keeping
every other byte, and its output length is the input length minus the
number of 0x00 bytes. -/
theorem remove_invalid_characters_spec (s : List Nat) (h : ∀ b ∈ s, b ≤ 0xff) :
    remove_invalid_characters s = s.filterMap sanitize_byte ∧
      (remove_invalid_characters s).length = s.length - s.count 0 := by
  induction s with
  | nil => simp [remove_invalid_characters]
  | cons c cs ih =>
    have hc : c ≤ 0xff := h c (List.mem_cons_self c cs)
    have hcs : ∀ b ∈ cs, b ≤ 0xff := fun b hb => h b (List.mem_cons_of_mem c hb)
    obtain ⟨ih1, ih2⟩ := ih hcs
    have hcount : cs.count 0 ≤ cs.length := List.count_le_length 0 cs
    have hbig : ¬ c > 0xff := by omega
    by_cases h9 : c = 0xc9
    · subst h9
      constructor
      · simp [remove_invalid_characters, sanitize_byte, ih1]
      · simp [remove_invalid_characters, List.count_cons, ih2] <;> omega
    · by_cases h0 : c = 0
      · subst h0
        constructor
        · simp [remove_invalid_characters, sanitize_byte, ih1]
        · simp [remove_invalid_characters, List.count_cons, ih2] <;> omega
      · constructor
        · simp [remove_invalid_characters, sanitize_byte, h9, h0, hbig, ih1]
        · simp [remove_invalid_characters, List.count_cons, h9, h0, hbig, ih2] <;> omega

/-- Witness for `remove_invalid_characters_spec` at a concrete stream. -/
theorem remove_invalid_characters_spec_witness :
    remove_invalid_characters [0x41, 0xc9, 0x00, 0x42] =
        [0x41, 0xc9, 0x00, 0x42].filterMap sanitize_byte ∧
      (remove_invalid_characters [0x41, 0xc9, 0x00, 0x42]).length =
        [0x41, 0xc9, 0x00, 0x42].length - [0x41, 0xc9, 0x00, 0x42].count 0 :=
  remove_invalid_characters_spec [0x41, 0xc9, 0x00, 0x42] (by decide)

/-- C9: on a true byte stream (every byte ≤ 0xFF) the `c > b'\xff'` branch of
the sanitizer loop is never taken, and the loop is total and only ever
shortens the stream, so executing the dead branch is safe. -/
theorem invalid_branch_never_taken (s : List Nat) (h : ∀ b ∈ s, b ≤ 0xff) :
    invalid_branch_hits s = 0 ∧
      (remove_invalid_characters s).length ≤ s.length := by
  induction s with
  | nil => simp [invalid_branch_hits, remove_invalid_characters]
  | cons c cs ih =>
    have hc : c ≤ 0xff := h c (List.mem_cons_self c cs)
    have hcs : ∀ b ∈ cs, b ≤ 0xff := fun b hb => h b (List.mem_cons_of_mem c hb)
    obtain ⟨ih1, ih2⟩ := ih hcs
    have hbig : ¬ c > 0xff := by omega
    by_cases h9 : c = 0xc9
    · subst h9
      constructor
      · simp [invalid_branch_hits, ih1]
      · simp [remove_invalid_characters] <;> omega
    · by_cases h0 : c = 0
      · subst h0
        constructor
        · simp [invalid_branch_hits, ih1]
        · simp [remove_invalid_characters] <;> omega
      · constructor
        · simp [invalid_branch_hits, h9, h0, hbig, ih1]
        · simp [remove_invalid_characters, h9, h0, hbig] <;> omega

/-- Witness for `invalid_branch_never_taken` at a concrete stream. -/
theorem invalid_branch_never_taken_witness :
    invalid_branch_hits [0xc9, 0x00, 0xff, 0x61] = 0 ∧
      (remove_invalid_characters [0xc9, 0x00, 0xff, 0x61]).length ≤
        [0xc9, 0x00, 0xff, 0x61].length :=
  invalid_branch_never_taken [0xc9, 0x00, 0xff, 0x61] (by decide)

/-- Membership in the regex character class `[0-9a-zA-Z]` of
`re.sub('[^0-9a-zA-Z]+', '_', text)` (src/csvloader.py line 208),
by code point. -/
def isAlnumCode (c : Nat) : Bool :=
  decide ((48 ≤ c ∧ c ≤ 57) ∨ (97 ≤ c ∧ c ≤ 122) ∨ (65 ≤ c ∧ c ≤ 90))

/-- The regex `[^0-9a-zA-Z]` matching a character of a run to be replaced. -/
def notAlnum (c : Nat) : Bool := !isAlnumCode c

/-- `re.sub('[^0-9a-zA-Z]+', '_', text)`: every maximal run of characters
outside `[0-9a-zA-Z]` is replaced by a single underscore (code point 95). -/
def subSpecialRuns : List Nat → List Nat
  | [] => []
  | c :: cs =>
    if isAlnumCode c then c :: subSpecialRuns cs
    else 95 :: subSpecialRuns (cs.dropWhile notAlnum)
termination_by l => l.length
decreasing_by
  · simp only [List.length_cons]
    omega
  · have := (List.dropWhile_sublist (l := cs) notAlnum).length_le
    simp only [List.length_cons]
    omega

/-- `str.lower()` as applied in `_simplify_text` (src/csvloader.py line 208):
there it only ever sees the output of the substitution, whose characters are
in `[0-9a-zA-Z_]`, and on that ASCII range `str.lower()` is exactly the map
sending `A`-`Z` (65-90) to `a`-`z` (97-122). -/
def lowerCode (c : Nat) : Nat := if 65 ≤ c ∧ c ≤ 90 then c + 32 else c

/-- `CsvLoader._simplify_text` (src/csvloader.py lines 196-213): substitute
special-character runs with `_`, lowercase, then strip exactly one leading
underscore if present. -/
def simplify_text (text : List Nat) : List Nat :=
  let unified := (subSpecialRuns text).map lowerCode
  if unified.head? = some 95 then unified.tail else unified

/-- `CsvLoader._normalize_headers` (src/csvloader.py lines 127-136). -/
def normalize_headers (original_headers : List (List Nat)) : List (List Nat) :=
  original_headers.map (fun header => simplify_text header)

theorem isAlnumCode_lowerCode (c : Nat) :
    isAlnumCode (lowerCode c) = isAlnumCode c := by
  unfold isAlnumCode lowerCode
  split <;> rename_i h
  · rw [decide_eq_decide]
    omega
  · rfl

theorem lowerCode_lowerCode (c : Nat) : lowerCode (lowerCode c) = lowerCode c := by
  simp only [lowerCode]
  by_cases h : 65 ≤ c ∧ c ≤ 90
  · simp only [if_pos h]
    rw [if_neg (by omega)]
  · simp only [if_neg h]

theorem map_lowerCode_map_lowerCode (u : List Nat) :
    (u.map lowerCode).map lowerCode = u.map lowerCode := by
  rw [List.map_map]
  exact List.map_congr_left fun a _ => lowerCode_lowerCode a

theorem dropWhile_head_notAlnum_false {l r : List Nat} {a : Nat}
    (h : l.dropWhile notAlnum = a :: r) : notAlnum a = false := by
  induction l with
  | nil => simp at h
  | cons b t ih =>
    rw [List.dropWhile_cons] at h
    split at h
    · exact ih h
    · rename_i hb
      cases h
      simpa using hb

theorem dropWhile_notAlnum_map_lowerCode (l : List Nat) :
    (l.map lowerCode).dropWhile notAlnum = (l.dropWhile notAlnum).map lowerCode := by
  rw [List.dropWhile_map]
  have hfun : (notAlnum ∘ lowerCode) = notAlnum := by
    funext c
    simp [notAlnum, Function.comp, isAlnumCode_lowerCode]
  rw [hfun]

theorem subSpecialRuns_map_lowerCode : (l : List Nat) →
    subSpecialRuns (l.map lowerCode) = (subSpecialRuns l).map lowerCode
  | [] => by simp [subSpecialRuns]
  | c :: cs => by
    by_cases hc : isAlnumCode c = true
    · have hc' : isAlnumCode (lowerCode c) = true := by
        rw [isAlnumCode_lowerCode]
        exact hc
      have ih := subSpecialRuns_map_lowerCode cs
      simp [subSpecialRuns, hc, hc', ih]
    · have hc2 : isAlnumCode c = false := by simpa using hc
      have hc' : isAlnumCode (lowerCode c) = false := by
        rw [isAlnumCode_lowerCode]
        exact hc2
      have ih := subSpecialRuns_map_lowerCode (cs.dropWhile notAlnum)
      have h95 : lowerCode 95 = 95 := by decide
      simp [subSpecialRuns, hc2, hc', dropWhile_notAlnum_map_lowerCode, ih, h95]
termination_by l => l.length
decreasing_by
  · simp only [List.length_cons]
    omega
  · have := (List.dropWhile_sublist (l := cs) notAlnum).length_le
    simp only [List.length_cons]
    omega

theorem dropWhile_subSpecialRuns_dropWhile (m : List Nat) :
    (subSpecialRuns (m.dropWhile notAlnum)).dropWhile notAlnum
      = subSpecialRuns (m.dropWhile notAlnum) := by
  cases hd : m.dropWhile notAlnum with
  | nil => simp [subSpecialRuns]
  | cons b t =>
    have hb' : isAlnumCode b = true := by
      simpa [notAlnum] using dropWhile_head_notAlnum_false hd
    have hb : notAlnum b = false := by simp [notAlnum, hb']
    simp [subSpecialRuns, hb', List.dropWhile_cons, hb]

theorem subSpecialRuns_idem : (l : List Nat) →
    subSpecialRuns (subSpecialRuns l) = subSpecialRuns l
  | [] => by simp [subSpecialRuns]
  | c :: cs => by
    by_cases hc : isAlnumCode c = true
    · have ih := subSpecialRuns_idem cs
      simp [subSpecialRuns, hc, ih]
    · have hc2 : isAlnumCode c = false := by simpa using hc
      have ih := subSpecialRuns_idem (cs.dropWhile notAlnum)
      have h95 : isAlnumCode 95 = false := by decide
      rw [show subSpecialRuns (c :: cs)
            = 95 :: subSpecialRuns (cs.dropWhile notAlnum) from by
          simp [subSpecialRuns, hc2]]
      rw [show subSpecialRuns (95 :: subSpecialRuns (cs.dropWhile notAlnum))
            = 95 :: subSpecialRuns
                ((subSpecialRuns (cs.dropWhile notAlnum)).dropWhile notAlnum) from by
          simp [subSpecialRuns, h95]]
      rw [dropWhile_subSpecialRuns_dropWhile, ih]
termination_by l => l.length
decreasing_by
  · simp only [List.length_cons]
    omega
  · have := (List.dropWhile_sublist (l := cs) notAlnum).length_le
    simp only [List.length_cons]
    omega

theorem simplify_text_fixed (v : List Nat) (h1 : subSpecialRuns v = v)
    (h2 : v.map lowerCode = v) (h3 : v.head? ≠ some 95) :
    simplify_text v = v := by
  simp [simplify_text, h1, h2, h3]

/-- C4: `_simplify_text` is idempotent: substituting special runs with a
single underscore, lowercasing and stripping one leading underscore leaves
an already-normalized string unchanged. -/
theorem simplify_text_idem (x : List Nat) :
    simplify_text (simplify_text x) = simplify_text x := by
  have hsub : subSpecialRuns ((subSpecialRuns x).map lowerCode)
      = (subSpecialRuns x).map lowerCode := by
    rw [subSpecialRuns_map_lowerCode, subSpecialRuns_idem]
  have hmap : ((subSpecialRuns x).map lowerCode).map lowerCode
      = (subSpecialRuns x).map lowerCode := map_lowerCode_map_lowerCode _
  cases hw : (subSpecialRuns x).map lowerCode with
  | nil =>
    have hx : simplify_text x = [] := by simp [simplify_text, hw]
    rw [hx]
    simp [simplify_text, subSpecialRuns]
  | cons a v =>
    rw [hw] at hsub hmap
    by_cases ha95 : a = 95
    · subst ha95
      have hx : simplify_text x = v := by simp [simplify_text, hw]
      rw [hx]
      have h95f : isAlnumCode 95 = false := by decide
      have hv2 : subSpecialRuns (v.dropWhile notAlnum) = v := by
        have h := hsub
        simp [subSpecialRuns, h95f] at h
        exact h
      have hsubv : subSpecialRuns v = v := by
        rw [← hv2, subSpecialRuns_idem]
      have hmapv : v.map lowerCode = v := by
        have h95l : lowerCode 95 = 95 := by decide
        have h := hmap
        simp [h95l] at h
        exact h
      have hhead : v.head? ≠ some 95 := by
        cases hd : v.dropWhile notAlnum with
        | nil =>
          rw [hd] at hv2
          have hv0 : v = ([] : List Nat) := by
            have := hv2.symm
            simpa [subSpecialRuns] using this
          rw [hv0]
          simp
        | cons b t =>
          have hb' : isAlnumCode b = true := by
            simpa [notAlnum] using dropWhile_head_notAlnum_false hd
          rw [hd] at hv2
          have hv3 : b :: subSpecialRuns t = v := by
            simpa [subSpecialRuns, hb'] using hv2
          rw [← hv3]
          simp only [List.head?_cons, ne_eq, Option.some.injEq]
          intro hb95
          rw [hb95] at hb'
          exact absurd hb' (by decide)
      exact simplify_text_fixed v hsubv hmapv hhead
    · have hx : simplify_text x = a :: v := by simp [simplify_text, hw, ha95]
      rw [hx]
      exact simplify_text_fixed (a :: v) hsub hmap (by simp [ha95])

/-- Python `str.format` with positional `\x7b\x7d` holes, as used for
`CREATE_STMT`, `COPY_STMT` and the per-column templates.  All templates in
the source are well formed: every opening brace is immediately followed by a
closing brace and the argument count matches the hole count. -/
def pyFormat : List Nat → List (List Nat) → List Nat
  | [], _ => []
  | [c], _ => [c]
  | c :: d :: rest, args =>
    if c = 123 ∧ d = 125 then
      match args with
      | a :: args2 => a ++ pyFormat rest args2
      | [] => c :: d :: pyFormat rest []
    else c :: pyFormat (d :: rest) args

/-- `CsvLoader.DEFAULT_DATA_TYPE` (src/csvloader.py line 20). -/
def DEFAULT_DATA_TYPE : List Nat := pystr "varchar"

/-- `CsvLoader.CREATE_STMT` (line 22): `CREATE TABLE IF NOT EXISTS {} ({});`
with the braces written as their escapes. -/
def CREATE_STMT : List Nat := pystr "CREATE TABLE IF NOT EXISTS \x7b\x7d (\x7b\x7d);"

/-- `CsvLoader.COPY_STMT` (line 23). -/
def COPY_STMT : List Nat :=
  pystr "COPY \x7b\x7d (\x7b\x7d) FROM stdin WITH CSV HEADER DELIMITER \x27\x7b\x7d\x27 QUOTE \x27\x7b\x7d\x27 ESCAPE \x27\x7b\x7d\x27"

/-- The column list of `_create_table` (line 154):
`'"{}" {}'.format(column, self.DEFAULT_DATA_TYPE)` for each header. -/
def create_columns (headers : List (List Nat)) : List (List Nat) :=
  headers.map (fun column =>
    pyFormat (pystr "\x22\x7b\x7d\x22 \x7b\x7d") [column, DEFAULT_DATA_TYPE])

/-- The statement executed by `_create_table` (lines 154-158). -/
def create_table_stmt (table_name : List Nat) (headers : List (List Nat)) : List Nat :=
  pyFormat CREATE_STMT
    [table_name, List.intercalate (pystr ",") (create_columns headers)]

/-- The column list of `_copy_from_csv` (line 175):
`'"{}"'.format(column)` for each header. -/
def copy_columns (headers : List (List Nat)) : List (List Nat) :=
  headers.map (fun column => pyFormat (pystr "\x22\x7b\x7d\x22") [column])

/-- The command built by `_copy_from_csv` (lines 175-180);
`copy_from_escape_char = escape_char or quote_char`. -/
def copy_stmt (table_name : List Nat) (headers : List (List Nat))
    (delimiter quote_char : Nat) (escape_char : Option Nat) : List Nat :=
  let columns_def := List.intercalate (pystr ",") (copy_columns headers)
  let copy_from_escape_char := escape_char.getD quote_char
  pyFormat COPY_STMT
    [table_name, columns_def, [delimiter], [quote_char], [copy_from_escape_char]]

/-- `os.path.basename` for POSIX paths: the part after the last `/` (47). -/
def basename (p : List Nat) : List Nat :=
  p.foldl (fun acc c => if c = 47 then [] else acc ++ [c]) []

/-- The stem part of `os.path.splitext` applied to a basename: cut at the
last dot (46), unless every character before that dot is itself a dot. -/
def splitext_stem (s : List Nat) : List Nat :=
  let idxs := (List.range s.length).filter
    (fun i => (s.getD i 0 == 46) && !((List.range i).all (fun j => s.getD j 0 == 46)))
  match idxs.getLast? with
  | some i => s.take i
  | none => s

/-- The string-valued class attributes of `CsvLoader` (lines 15-20;
`DEFAULT_ESCAPE_CHAR = None` and `DEFAULT_DOUBLE_QUOTE = True` are not
strings and are never looked up by the modelled paths). -/
def class_str_attrs : List (String × List Nat) :=
  [("DEFAULT_DELIMITER", pystr ","),
   ("DEFAULT_QUOTE_CHAR", pystr "\x22"),
   ("DEFAULT_TABLE_PREFIX", pystr "csv_"),
   ("DEFAULT_DATA_TYPE", pystr "varchar")]

/-- The instance attributes set by `CsvLoader.__init__` (line 31): only
`_connection_string`. -/
def obj_str_attrs (connection_string : List Nat) : List (String × List Nat) :=
  [("_connection_string", connection_string)]

/-- Python attribute lookup `self.<name>`: instance dict first, then the
class dict, else `AttributeError`. -/
def getattr_str (connection_string : List Nat) (name : String) :
    Except PyErr (List Nat) :=
  match (obj_str_attrs connection_string).lookup name with
  | some v => Except.ok v
  | none =>
    match class_str_attrs.lookup name with
    | some v => Except.ok v
    | none => Except.error PyErr.attributeError

/-- `CsvLoader._generate_table_name` (lines 138-145): evaluates
`self._table_prefix + CsvLoader._simplify_text(base)`.  `_table_prefix` is
looked up with `getattr_str` because no such attribute is ever assigned. -/
def generate_table_name (connection_string file_path : List Nat) :
    Except PyErr (List Nat) :=
  let base := splitext_stem (basename file_path)
  match getattr_str connection_string "_table_prefix" with
  | Except.error e => Except.error e
  | Except.ok p => Except.ok (p ++ simplify_text base)

/-- Externally visible actions of one `load_data` call, in order. -/
inductive Effect where
  /-- `_read_headers`: `csv.reader(open(file_path), ..., escapechar=e)` and
  `next(reader)` (lines 90-92), recording the escape character handed to the
  csv module. -/
  | readHeaders (escape_char : Option Nat)
  /-- `connect(self._connection_string)` succeeded (line 63). -/
  | connOpened
  /-- `_create_table` executed and committed this statement (lines 154-159). -/
  | createExecuted (stmt : List Nat)
  /-- `_remove_invalid_characters` wrote this sanitized work file (line 70). -/
  | tempFileWritten (content : List Nat)
  /-- `_copy_from_csv` ran `cursor.copy_expert` with this command (line 187). -/
  | copyExecuted (stmt : List Nat)
  /-- `connection.close()` (line 76). -/
  | connClosed
deriving DecidableEq, Repr

/-- Outcomes of the external collaborators for one `load_data` call: the csv
module's parse of the header row (as a function of the escape character the
reader is configured with), the database driver's three fallible calls, and
the raw bytes of the input file seen by the sanitizer. -/
structure World where
  header_row : Option Nat → Except PyErr (List (List Nat))
  connect_ok : Except PyErr Unit
  create_ok : Except PyErr Unit
  copy_ok : Except PyErr Unit
  raw_bytes : List Nat

/-- Line 51: `escape_char = None if (escape_char == quote_char) else
escape_char`. -/
def collapse_escape (escape_char : Option Nat) (quote_char : Nat) : Option Nat :=
  if escape_char = some quote_char then none else escape_char

/-- `CsvLoader.load_data` (lines 33-76), returning the effect trace and the
outcome: collapse the escape character, read the header row, normalize it,
derive the table name when none is given, connect, optionally create the
table (committed as its own unit), sanitize the file to a work file, run the
COPY command, and close the connection.  There is no `try/finally`: each
failure propagates at the point it occurs, leaving the trace accumulated so
far. -/
def load_data (connection_string : List Nat) (w : World) (file_path : List Nat)
    (table_name : Option (List Nat)) (delimiter quote_char : Nat)
    (escape_char : Option Nat) (create_table : Bool) :
    List Effect × Except PyErr Unit :=
  let escape_char := collapse_escape escape_char quote_char
  match w.header_row escape_char with
  | Except.error e => ([Effect.readHeaders escape_char], Except.error e)
  | Except.ok original_headers =>
    let headers := normalize_headers original_headers
    let tn : Except PyErr (List Nat) :=
      match table_name with
      | none => generate_table_name connection_string file_path
      | some t => Except.ok t
    match tn with
    | Except.error e => ([Effect.readHeaders escape_char], Except.error e)
    | Except.ok tname =>
      match w.connect_ok with
      | Except.error e => ([Effect.readHeaders escape_char], Except.error e)
      | Except.ok _ =>
        let tr1 : List Effect :=
          [Effect.readHeaders escape_char, Effect.connOpened] ++
            (if create_table
             then [Effect.createExecuted (create_table_stmt tname headers)]
             else [])
        match (if create_table then w.create_ok else Except.ok ()) with
        | Except.error e => (tr1, Except.error e)
        | Except.ok _ =>
          let work_file := remove_invalid_characters w.raw_bytes
          let command := copy_stmt tname headers delimiter quote_char escape_char
          let tr2 := tr1 ++
            [Effect.tempFileWritten work_file, Effect.copyExecuted command]
          match w.copy_ok with
          | Except.error e => (tr2, Except.error e)
          | Except.ok _ => (tr2 ++ [Effect.connClosed], Except.ok ())

/-- Per-column agreement: the CREATE column entry is the COPY column entry
with a space and the column type appended. -/
theorem create_column_append (a : List Nat) :
    pyFormat (pystr "\x22\x7b\x7d\x22 \x7b\x7d") [a, DEFAULT_DATA_TYPE]
      = pyFormat (pystr "\x22\x7b\x7d\x22") [a] ++ 32 :: DEFAULT_DATA_TYPE := by
  show pyFormat [34, 123, 125, 34, 32, 123, 125] [a, DEFAULT_DATA_TYPE]
      = pyFormat [34, 123, 125, 34] [a] ++ 32 :: DEFAULT_DATA_TYPE
  simp [pyFormat]

/-- C10: for every header list, the column identifiers embedded in the
CREATE TABLE statement and those embedded in the COPY statement are the
same double-quoted identifiers in the same order, the CREATE entries
differing only by the appended column type. -/
theorem create_columns_copy_columns_agree (headers : List (List Nat)) :
    create_columns headers
      = (copy_columns headers).map (fun c => c ++ 32 :: DEFAULT_DATA_TYPE) := by
  simp only [create_columns, copy_columns, List.map_map]
  exact List.map_congr_left fun a _ => create_column_append a

/-- C3: normalization of a header row keeps the entry count and maps the
i-th raw header to the i-th normalized column. -/
theorem normalize_headers_correspondence (hs : List (List Nat)) (hne : hs ≠ []) :
    (normalize_headers hs).length = hs.length ∧
      ∀ i, i < hs.length →
        (normalize_headers hs).getD i [] = simplify_text (hs.getD i []) := by
  refine ⟨by simp [normalize_headers], ?_⟩
  intro i hi
  simp only [normalize_headers, List.getD_eq_getElem?_getD, List.getElem?_map]
  cases h : hs[i]? with
  | none =>
    rw [List.getElem?_eq_none_iff] at h
    omega
  | some a => simp

/-- Witness for `normalize_headers_correspondence` on a concrete header row. -/
theorem normalize_headers_correspondence_witness :
    (normalize_headers [pystr "First Name", pystr "AGE"]).length
        = [pystr "First Name", pystr "AGE"].length ∧
      ∀ i, i < [pystr "First Name", pystr "AGE"].length →
        (normalize_headers [pystr "First Name", pystr "AGE"]).getD i []
          = simplify_text ([pystr "First Name", pystr "AGE"].getD i []) :=
  normalize_headers_correspondence [pystr "First Name", pystr "AGE"] (by simp)

/-- C2: the spec says an omitted table name is derived as prefix +
normalized file stem without failing; in the code `_generate_table_name`
reads `self._table_prefix`, which is never assigned (`__init__` sets only
`_connection_string`; the class defines `DEFAULT_TABLE_PREFIX`, a different
name), so every `load_data` call without an explicit table name raises
AttributeError after the header read and before any connection is opened. -/
theorem load_data_missing_table_name_fails (connection_string : List Nat)
    (w : World) (file_path : List Nat) (delimiter quote_char : Nat)
    (escape_char : Option Nat) (create_table : Bool) (hs : List (List Nat))
    (hh : w.header_row (collapse_escape escape_char quote_char) = Except.ok hs) :
    load_data connection_string w file_path none delimiter quote_char
        escape_char create_table
      = ([Effect.readHeaders (collapse_escape escape_char quote_char)],
         Except.error PyErr.attributeError) := by
  have hg : generate_table_name connection_string file_path
      = Except.error PyErr.attributeError := rfl
  simp [load_data, hh, hg]

/-- World in which the header row parses and the store never fails. -/
def w2 : World :=
  { header_row := fun _ => Except.ok [pystr "id"]
    connect_ok := Except.ok ()
    create_ok := Except.ok ()
    copy_ok := Except.ok ()
    raw_bytes := [] }

/-- Witness for `load_data_missing_table_name_fails` at concrete inputs. -/
theorem load_data_missing_table_name_fails_witness :
    load_data (pystr "dbname=gnaf") w2 (pystr "data.csv") none 44 34 none true
      = ([Effect.readHeaders (collapse_escape none 34)],
         Except.error PyErr.attributeError) :=
  load_data_missing_table_name_fails (pystr "dbname=gnaf") w2 (pystr "data.csv")
    44 34 none true [pystr "id"] rfl

/-- A header consisting only of characters outside `[0-9a-zA-Z]` normalizes
to the empty string: the substitution collapses it to one underscore, which
the leading-underscore strip then removes. -/
theorem simplify_text_all_special (h : List Nat) (hne : h ≠ [])
    (hall : ∀ c ∈ h, isAlnumCode c = false) : simplify_text h = [] := by
  obtain ⟨c, cs, rfl⟩ := List.exists_cons_of_ne_nil hne
  have hc : isAlnumCode c = false := hall c (List.mem_cons_self c cs)
  have hdrop : cs.dropWhile notAlnum = [] := by
    rw [List.dropWhile_eq_nil_iff]
    intro x hx
    simp [notAlnum, hall x (List.mem_cons_of_mem c hx)]
  have hsub : subSpecialRuns (c :: cs) = [95] := by
    simp [subSpecialRuns, hc, hdrop]
  simp [simplify_text, hsub, lowerCode]

/-- World whose header row is the single all-special header `"###"`. -/
def w5 : World :=
  { header_row := fun _ => Except.ok [pystr "###"]
    connect_ok := Except.ok ()
    create_ok := Except.ok ()
    copy_ok := Except.ok ()
    raw_bytes := [] }

/-- C5 counterexample: for the header row `["###"]` (with an explicit table
name) `load_data` succeeds — no `SchemaError` exists anywhere in the code —
and it executes a CREATE TABLE statement containing the empty double-quoted
column identifier, store interaction included. -/
theorem load_data_special_header_no_schema_error :
    (load_data (pystr "db") w5 (pystr "f.csv") (some (pystr "t")) 44 34 none
          true).2
        = Except.ok () ∧
      Effect.createExecuted
          (pystr "CREATE TABLE IF NOT EXISTS t (\x22\x22 varchar);")
        ∈ (load_data (pystr "db") w5 (pystr "f.csv") (some (pystr "t")) 44 34
            none true).1 := by
  have hsim : simplify_text (pystr "###") = [] := by
    simp [simplify_text, subSpecialRuns, pystr, notAlnum, isAlnumCode,
      lowerCode, List.dropWhile]
  have hnorm : normalize_headers [pystr "###"] = [[]] := by
    simp [normalize_headers, hsim]
  have hstmt : create_table_stmt (pystr "t") [[]]
      = pystr "CREATE TABLE IF NOT EXISTS t (\x22\x22 varchar);" := by decide
  constructor
  · simp [load_data, w5, hnorm]
  · simp [load_data, w5, hnorm, hstmt]

/-- C5 amended: a header whose characters are all outside `[0-9a-zA-Z]`
normalizes to the empty string and `load_data` (given an explicit table
name) raises no error at all: the empty identifier is embedded,
double-quoted, in the CREATE TABLE statement sent to the store. -/
theorem load_data_special_header_proceeds (connection_string : List Nat)
    (w : World) (file_path t h : List Nat) (delimiter quote_char : Nat)
    (escape_char : Option Nat) (hne : h ≠ [])
    (hall : ∀ c ∈ h, isAlnumCode c = false)
    (hh : w.header_row (collapse_escape escape_char quote_char)
        = Except.ok [h])
    (hc : w.connect_ok = Except.ok ()) (hcr : w.create_ok = Except.ok ())
    (hcp : w.copy_ok = Except.ok ()) :
    (load_data connection_string w file_path (some t) delimiter quote_char
          escape_char true).2
        = Except.ok () ∧
      Effect.createExecuted (create_table_stmt t [[]])
        ∈ (load_data connection_string w file_path (some t) delimiter
            quote_char escape_char true).1 ∧
      create_table_stmt t [[]]
        = pyFormat CREATE_STMT [t, pystr "\x22\x22 varchar"] := by
  have hnorm : normalize_headers [h] = [[]] := by
    simp [normalize_headers, simplify_text_all_special h hne hall]
  refine ⟨?_, ?_, rfl⟩
  · simp [load_data, hh, hnorm, hc, hcr, hcp]
  · simp [load_data, hh, hnorm, hc, hcr, hcp]

/-- Witness for `load_data_special_header_proceeds` at concrete inputs. -/
theorem load_data_special_header_proceeds_witness :
    (load_data (pystr "db") w5 (pystr "g.csv") (some (pystr "u")) 59 34 none
          true).2
        = Except.ok () ∧
      Effect.createExecuted (create_table_stmt (pystr "u") [[]])
        ∈ (load_data (pystr "db") w5 (pystr "g.csv") (some (pystr "u")) 59 34
            none true).1 ∧
      create_table_stmt (pystr "u") [[]]
        = pyFormat CREATE_STMT [pystr "u", pystr "\x22\x22 varchar"] :=
  load_data_special_header_proceeds (pystr "db") w5 (pystr "g.csv") (pystr "u")
    (pystr "###") 59 34 none (by decide) (by decide) rfl rfl rfl rfl

/-- C6: when the csv parse of the header row fails — the file is empty
(`StopIteration` from `next`), missing (`FileNotFoundError`) or the header
is unparsable under the configured dialect (`csv.Error`), the failures the
spec groups as `FormatError` — `load_data` propagates that error having done
no partial work: no connection opened, no statement executed, no temp file
written. -/
theorem load_data_parse_error_no_partial_work (connection_string : List Nat)
    (w : World) (file_path : List Nat) (table_name : Option (List Nat))
    (delimiter quote_char : Nat) (escape_char : Option Nat)
    (create_table : Bool) (e : PyErr)
    (hh : w.header_row (collapse_escape escape_char quote_char)
        = Except.error e) :
    load_data connection_string w file_path table_name delimiter quote_char
        escape_char create_table
      = ([Effect.readHeaders (collapse_escape escape_char quote_char)],
         Except.error e) ∧
      Effect.connOpened ∉ (load_data connection_string w file_path table_name
          delimiter quote_char escape_char create_table).1 ∧
      (∀ s, Effect.createExecuted s ∉ (load_data connection_string w file_path
          table_name delimiter quote_char escape_char create_table).1) ∧
      (∀ b, Effect.tempFileWritten b ∉ (load_data connection_string w
          file_path table_name delimiter quote_char escape_char
          create_table).1) := by
  have h1 : load_data connection_string w file_path table_name delimiter
      quote_char escape_char create_table
      = ([Effect.readHeaders (collapse_escape escape_char quote_char)],
         Except.error e) := by
    simp [load_data, hh]
  refine ⟨h1, ?_, ?_, ?_⟩
  · rw [h1]
    simp
  · intro s
    rw [h1]
    simp
  · intro b
    rw [h1]
    simp

/-- World whose input file is empty: `next(reader)` raises StopIteration. -/
def w6 : World :=
  { header_row := fun _ => Except.error PyErr.stopIteration
    connect_ok := Except.ok ()
    create_ok := Except.ok ()
    copy_ok := Except.ok ()
    raw_bytes := [] }

/-- Witness for `load_data_parse_error_no_partial_work` at concrete inputs. -/
theorem load_data_parse_error_no_partial_work_witness :
    load_data (pystr "db") w6 (pystr "empty.csv") (some (pystr "t")) 44 34
        none true
      = ([Effect.readHeaders (collapse_escape none 34)],
         Except.error PyErr.stopIteration) ∧
      Effect.connOpened ∉ (load_data (pystr "db") w6 (pystr "empty.csv")
          (some (pystr "t")) 44 34 none true).1 ∧
      (∀ s, Effect.createExecuted s ∉ (load_data (pystr "db") w6
          (pystr "empty.csv") (some (pystr "t")) 44 34 none true).1) ∧
      (∀ b, Effect.tempFileWritten b ∉ (load_data (pystr "db") w6
          (pystr "empty.csv") (some (pystr "t")) 44 34 none true).1) :=
  load_data_parse_error_no_partial_work (pystr "db") w6 (pystr "empty.csv")
    (some (pystr "t")) 44 34 none true PyErr.stopIteration rfl

/-- World in which the bulk copy fails at the store. -/
def w7 : World :=
  { header_row := fun _ => Except.ok [pystr "a"]
    connect_ok := Except.ok ()
    create_ok := Except.ok ()
    copy_ok := Except.error PyErr.databaseError
    raw_bytes := [] }

/-- C7 counterexample: when `copy_expert` raises after the connection was
acquired, `load_data` propagates the error and `connection.close()` is never
executed — there is no `try/finally` around lines 63-76. -/
theorem load_data_copy_failure_leaves_connection_open :
    Effect.connOpened ∈ (load_data (pystr "db") w7 (pystr "f.csv")
        (some (pystr "t")) 44 34 none false).1 ∧
      Effect.connClosed ∉ (load_data (pystr "db") w7 (pystr "f.csv")
          (some (pystr "t")) 44 34 none false).1 ∧
      (load_data (pystr "db") w7 (pystr "f.csv") (some (pystr "t")) 44 34
          none false).2
        = Except.error PyErr.databaseError := by
  refine ⟨?_, ?_, ?_⟩ <;> simp [load_data, w7]

/-- C7 amended: the store connection is released exactly on the success
path; on every failure after the connection is acquired (table creation or
bulk copy raising) the connection is left open, the close happening only as
the final step of a fully successful load. -/
theorem load_data_conn_closed_iff_success (connection_string : List Nat)
    (w : World) (file_path : List Nat) (table_name : Option (List Nat))
    (delimiter quote_char : Nat) (escape_char : Option Nat)
    (create_table : Bool) :
    Effect.connClosed ∈ (load_data connection_string w file_path table_name
        delimiter quote_char escape_char create_table).1
      ↔ (load_data connection_string w file_path table_name delimiter
          quote_char escape_char create_table).2 = Except.ok () := by
  rcases hh : w.header_row (collapse_escape escape_char quote_char) with e | hs
  · simp [load_data, hh]
  · rcases table_name with _ | t
    · rcases hg : generate_table_name connection_string file_path with e | tname
      · simp [load_data, hh, hg]
      · rcases hcn : w.connect_ok with e | u
        · simp [load_data, hh, hg, hcn]
        · cases create_table
          · rcases hcp : w.copy_ok with e | v
            · simp [load_data, hh, hg, hcn, hcp]
            · simp [load_data, hh, hg, hcn, hcp]
          · rcases hcr : w.create_ok with e | v
            · simp [load_data, hh, hg, hcn, hcr]
            · rcases hcp : w.copy_ok with e | v2
              · simp [load_data, hh, hg, hcn, hcr, hcp]
              · simp [load_data, hh, hg, hcn, hcr, hcp]
    · rcases hcn : w.connect_ok with e | u
      · simp [load_data, hh, hcn]
      · cases create_table
        · rcases hcp : w.copy_ok with e | v
          · simp [load_data, hh, hcn, hcp]
          · simp [load_data, hh, hcn, hcp]
        · rcases hcr : w.create_ok with e | v
          · simp [load_data, hh, hcn, hcr]
          · rcases hcp : w.copy_ok with e | v2
            · simp [load_data, hh, hcn, hcr, hcp]
            · simp [load_data, hh, hcn, hcr, hcp]

/-- C8: line 51 collapses the escape character — unset, or equal to the
quote character, becomes `None` — so in those cases the header row is parsed
with no escape character and `copy_from_escape_char = escape_char or
quote_char` puts the quote character into the ESCAPE slot of the COPY
command; any other escape character is used unchanged in both places. -/
theorem load_data_escape_collapse (connection_string : List Nat) (w : World)
    (file_path t : List Nat) (delimiter quote_char : Nat)
    (escape_char : Option Nat) (create_table : Bool) (hs : List (List Nat))
    (hh : w.header_row (collapse_escape escape_char quote_char)
        = Except.ok hs)
    (hc : w.connect_ok = Except.ok ()) (hcr : w.create_ok = Except.ok ())
    (hcp : w.copy_ok = Except.ok ()) :
    ((escape_char = none ∨ escape_char = some quote_char) →
        load_data connection_string w file_path (some t) delimiter quote_char
            escape_char create_table
          = ([Effect.readHeaders none, Effect.connOpened] ++
              (if create_table
               then [Effect.createExecuted
                       (create_table_stmt t (normalize_headers hs))]
               else []) ++
              [Effect.tempFileWritten (remove_invalid_characters w.raw_bytes),
               Effect.copyExecuted (pyFormat COPY_STMT
                 [t,
                  List.intercalate (pystr ",")
                    (copy_columns (normalize_headers hs)),
                  [delimiter], [quote_char], [quote_char]]),
               Effect.connClosed],
             Except.ok ())) ∧
      (∀ c, escape_char = some c → c ≠ quote_char →
        load_data connection_string w file_path (some t) delimiter quote_char
            escape_char create_table
          = ([Effect.readHeaders (some c), Effect.connOpened] ++
              (if create_table
               then [Effect.createExecuted
                       (create_table_stmt t (normalize_headers hs))]
               else []) ++
              [Effect.tempFileWritten (remove_invalid_characters w.raw_bytes),
               Effect.copyExecuted (pyFormat COPY_STMT
                 [t,
                  List.intercalate (pystr ",")
                    (copy_columns (normalize_headers hs)),
                  [delimiter], [quote_char], [c]]),
               Effect.connClosed],
             Except.ok ())) := by
  constructor
  · intro hdisj
    have hce : collapse_escape escape_char quote_char = none := by
      rcases hdisj with h | h <;> simp [collapse_escape, h]
    rw [hce] at hh
    simp [load_data, hce, hh, hc, hcr, hcp, copy_stmt]
  · intro c hec hne
    have hce : collapse_escape escape_char quote_char = some c := by
      simp [collapse_escape, hec, hne]
    rw [hce] at hh
    simp [load_data, hce, hh, hc, hcr, hcp, copy_stmt]

/-- World with a plain one-column header and a store that never fails. -/
def w8 : World :=
  { header_row := fun _ => Except.ok [pystr "a"]
    connect_ok := Except.ok ()
    create_ok := Except.ok ()
    copy_ok := Except.ok ()
    raw_bytes := [] }

/-- Witness for `load_data_escape_collapse`: with the escape character equal
to the quote character, the reader gets no escape character and the COPY
command's ESCAPE slot carries the quote character. -/
theorem load_data_escape_collapse_witness :
    load_data (pystr "db") w8 (pystr "f.csv") (some (pystr "t")) 44 34
        (some 34) false
      = ([Effect.readHeaders none, Effect.connOpened] ++
          (if false
           then [Effect.createExecuted
                   (create_table_stmt (pystr "t")
                     (normalize_headers [pystr "a"]))]
           else []) ++
          [Effect.tempFileWritten (remove_invalid_characters w8.raw_bytes),
           Effect.copyExecuted (pyFormat COPY_STMT
             [pystr "t",
              List.intercalate (pystr ",")
                (copy_columns (normalize_headers [pystr "a"])),
              [44], [34], [34]]),
           Effect.connClosed],
         Except.ok ()) :=
  (load_data_escape_collapse (pystr "db") w8 (pystr "f.csv") (pystr "t") 44 34
    (some 34) false [pystr "a"] rfl rfl rfl rfl).1 (Or.inr rfl)
